import Mathlib

set_option maxRecDepth 16000

/-!
Verification of the `hopter-procedural-macro` crate's transformation logic.

The crate implements two attribute macros over `syn` syntax trees:
`main` (task-entry transformation) and `handler` (IRQ-handler transformation).
This file gives a shallow embedding of the parts of the crate that the
claims are about: the structural description of a function signature that
the macros inspect, the two signature checkers, the attribute-argument
parser resolving an IRQ name against the build-selected registry, and the
string synthesis of the generated trampolines.  Rust `panic!` calls abort
the macro expansion with a message; they are embedded as `Except.error`
carrying the exact panic message, and the sequential statement flow of the
Rust functions is embedded with the `Except` monad so that the first
failing check determines the result.
-/

namespace Hopter

/-- Rust type expressions, as far as the macros inspect them
(`syn::Type`): a tuple type with its element list (the unit type is the
empty tuple), the never type `!`, or any other type, kept abstract as its
source text. -/
inductive RustType where
  | tuple (elems : List RustType)
  | never
  | other (descr : String)

/-- Return type of a Rust function signature (`syn::ReturnType`): either
no return-type annotation at all (`default`), or an explicit `-> T`. -/
inductive ReturnType where
  | default
  | type (t : RustType)

/-- The fields of `syn::Signature` that the macros read: the function
identifier, the list of parameter types (`inputs`; only inspected through
its length), the return type (`output`), and the `async` / `unsafe` /
explicit-ABI / variadic markers.  `asyncness`, `unsafety` and `variadic`
embed `Option::is_some()` of the corresponding `syn` fields; `abi` keeps
the declared ABI string when one is present. -/
structure Signature where
  ident : String
  inputs : List RustType
  output : ReturnType
  asyncness : Bool
  unsafety : Bool
  abi : Option String
  variadic : Bool

/-- A parsed Rust function item (`syn::ItemFn`): its signature plus the
rest of the item (body and attributes), kept abstract as source text —
the macros never inspect it, they only reproduce it. -/
structure ItemFn where
  sig : Signature
  body : String

/-- One attribute argument (`syn::NestedMeta`): a bare path/identifier
(`NestedMeta::Meta(Meta::Path(_))`, stringified), or any other syntactic
form (literals, name-value pairs, lists). -/
inductive NestedMeta where
  | metaPath (path : String)
  | otherMeta (descr : String)

/-- One fragment of the token stream a macro expansion returns: either
generated code (kept as the synthesized source text that the crate
`format!`s and re-parses), or a function item reproduced verbatim. -/
inductive OutputFragment where
  | tokens (code : String)
  | func (f : ItemFn)

/-- The `hander_macro_arg_error!` macro of the crate: the single message
used by every failure of `parse_attribute_arg_to_irq`. -/
def hander_macro_arg_error : String :=
  "Handler\x27s argument must be one of the supported IRQs. Forgot to set the MCU model feature?"

/-- The `hander_macro_retval_error!` macro of the crate: the return-type
failure message, used by both signature checkers. -/
def hander_macro_retval_error : String :=
  "Handler\x27s return type must be ()."

/-- Embedding of `check_main_function_signature`.  Each `panic!` of the
source is an `Except.error` with the exact panic message; the checks run
in source order and the first failure aborts. -/
def check_main_function_signature (sig : Signature) : Except String Unit := do
  if sig.inputs.length ≠ 1 then
    Except.error "Main function must receive one argument of type `cortex_m::Peripherals`."
  match sig.output with
  | ReturnType.default => pure ()
  | ReturnType.type t =>
    match t with
    | RustType.tuple elems =>
      if elems.length ≠ 0 then
        Except.error hander_macro_retval_error
      else
        pure ()
    | RustType.never => pure ()
    | RustType.other _ => Except.error hander_macro_retval_error
  if sig.asyncness then
    Except.error "Main function cannot be `async`."
  if sig.unsafety then
    Except.error "Main function must be safe."
  if sig.variadic then
    Except.error "Handler function cannot be variadic."

/-- Embedding of `check_handler_function_signature`: no parameter, `()`
return (the never type is not accepted here), no explicit ABI, not
`async`, not variadic.  There is no check of the `unsafe` marker. -/
def check_handler_function_signature (sig : Signature) : Except String Unit := do
  if sig.inputs.length ≠ 0 then
    Except.error "Handler function should not have any parameter."
  match sig.output with
  | ReturnType.default => pure ()
  | ReturnType.type t =>
    match t with
    | RustType.tuple elems =>
      if elems.length ≠ 0 then
        Except.error hander_macro_retval_error
      else
        pure ()
    | _ => Except.error hander_macro_retval_error
  if sig.abi.isSome then
    Except.error "Handler function must have Rust ABI."
  if sig.asyncness then
    Except.error "Handler function cannot be `async`."
  if sig.variadic then
    Except.error "Handler function cannot be variadic."

/-- Embedding of `parse_attribute_arg_to_irq`, parameterized by the
build-selected `SUPPORTED_IRQS` table: exactly one argument, which must be
a bare path, whose stringification must occur in the table; every failure
panics with `hander_macro_arg_error!`. -/
def parse_attribute_arg_to_irq (supported : List String)
    (attr_args : List NestedMeta) : Except String String := do
  if attr_args.length ≠ 1 then
    Except.error hander_macro_arg_error
  let arg ← match attr_args.head? with
    | some (NestedMeta.metaPath ss) => pure ss
    | _ => Except.error hander_macro_arg_error
  if ! supported.any (fun irq => irq == arg) then
    Except.error hander_macro_arg_error
  pure arg

/-- The `SUPPORTED_IRQS` constant under the `cfg` branch where none of the
MCU-model features is selected: the empty table. -/
def SUPPORTED_IRQS_no_feature : List String := []

/-- The `SUPPORTED_IRQS` constant under `cfg(feature = "stm32f401")`:
the 55 IRQ names of that target variant. -/
def SUPPORTED_IRQS_stm32f401 : List String :=
  ["PVD", "TAMP_STAMP", "RTC_WKUP", "FLASH", "RCC", "EXTI0", "EXTI1",
   "EXTI2", "EXTI3", "EXTI4", "DMA1_STREAM0", "DMA1_STREAM1",
   "DMA1_STREAM2", "DMA1_STREAM3", "DMA1_STREAM4", "DMA1_STREAM5",
   "DMA1_STREAM6", "ADC", "EXTI9_5", "TIM1_BRK_TIM9", "TIM1_UP_TIM10",
   "TIM1_TRG_COM_TIM11", "TIM1_CC", "TIM2", "TIM3", "TIM4", "I2C1_EV",
   "I2C1_ER", "I2C2_EV", "I2C2_ER", "SPI1", "SPI2", "USART1", "USART2",
   "EXTI15_10", "RTC_ALARM", "OTG_FS_WKUP", "DMA1_STREAM7", "SDIO",
   "TIM5", "SPI3", "DMA2_STREAM0", "DMA2_STREAM1", "DMA2_STREAM2",
   "DMA2_STREAM3", "DMA2_STREAM4", "OTG_FS", "DMA2_STREAM5",
   "DMA2_STREAM6", "DMA2_STREAM7", "USART6", "I2C3_EV", "I2C3_ER",
   "FPU", "SPI4"]

/-- The trampoline string the `main` macro `format!`s (source lines
52–61), with the single `{}` placeholder filled by the user function's
name.  Literal chunks are split exactly at the placeholder; `\x7b` and
`\x7d` denote the brace characters produced by the `{{` / `}}` escapes of
the Rust format string. -/
def main_trampoline_str (func_name : String) : String :=
  "#[no_mangle]\nextern \"Rust\" fn __main_trampoline(arg: core::sync::atomic::AtomicPtr<u8>) \x7b\nlet arg = arg.load(core::sync::atomic::Ordering::SeqCst) as *mut cortex_m::Peripherals;\nlet arg = unsafe \x7b alloc::boxed::Box::from_raw(arg) \x7d;\n" ++
  func_name ++
  "(*arg)\n\x7d"

/-- The entry-sequence string the `handler` macro `format!`s (source
lines 146–174), with the three `{}` placeholders filled in source order:
the IRQ name, then twice the lowercased IRQ name.  Literal chunks are
split exactly at the placeholders. -/
def entry_asm_str (irq lower_caes_irq : String) : String :=
  "#[naked]\n#[export_name = \"" ++
  irq ++
  "\"]\nunsafe extern \"C\" fn __hopter_" ++
  lower_caes_irq ++
  "_entry() \x7b\ncore::arch::asm!(\n\"ldr   r0, =\x7btls_mem_addr\x7d\",\n\"ldmia r0, \x7b\x7br1-r3\x7d\x7d\",\n\"push  \x7b\x7br1-r3, lr\x7d\x7d\",\n\"ldr   r1, =\x7bcont_stk_boundary\x7d\",\n\"mov   r2, #0\",\n\"strd  r1, r2, [r0]\",\n\"str   r2, [r0, #8]\",\n// Run the IRQ handler.\n\"bl    \x7bhandler_trampoline\x7d\",\n\"pop   \x7b\x7br1-r3\x7d\x7d\",\n\"ldr   r0, =\x7btls_mem_addr\x7d\",\n\"stmia r0, \x7b\x7br1-r3\x7d\x7d\",\n// Exception return.\n\"pop   \x7b\x7bpc\x7d\x7d\",\ntls_mem_addr = const hopter::config::__TLS_MEM_ADDR,\ncont_stk_boundary = const hopter::config::__CONTIGUOUS_STACK_BOUNDARY,\nhandler_trampoline = sym __hopter_" ++
  lower_caes_irq ++
  "_trampoline,\noptions(noreturn)\n)\n\x7d\n"

/-- The dispatch-trampoline string the `handler` macro `format!`s (source
lines 178–187), with the two `{}` placeholders filled by the lowercased
IRQ name and the user handler's name. -/
def handler_trampoline_str (lower_caes_irq func_name : String) : String :=
  "unsafe extern \"C\" fn __hopter_" ++
  lower_caes_irq ++
  "_trampoline() \x7b\nlet prev_is_handler_unwinding = hopter::unwind::unwind::save_and_clear_isr_unwinding();\nlet _ = hopter::unwind::unw_catch::catch_unwind(" ++
  func_name ++
  ");\nhopter::unwind::unwind::set_isr_unwinding(prev_is_handler_unwinding);\n\x7d\n"

/-- Embedding of the `main` attribute macro: validate the signature, then
output the trampoline followed by the original function item, verbatim.
A `panic!` anywhere aborts the whole expansion with that message. -/
def main (main_func : ItemFn) : Except String (List OutputFragment) := do
  check_main_function_signature main_func.sig
  let func_name := main_func.sig.ident
  pure [OutputFragment.tokens (main_trampoline_str func_name),
        OutputFragment.func main_func]

/-- Embedding of the `handler` attribute macro, parameterized by the
build-selected `SUPPORTED_IRQS` table: validate the signature, then
resolve the IRQ name from the attribute arguments, then output the entry
sequence, the dispatch trampoline, and the original function item,
verbatim.  The signature is checked before the name is resolved, exactly
as in the source (lines 138 and 140). -/
def handler (supported : List String) (attr_args : List NestedMeta)
    (handler_func : ItemFn) : Except String (List OutputFragment) := do
  check_handler_function_signature handler_func.sig
  let irq ← parse_attribute_arg_to_irq supported attr_args
  let lower_caes_irq := irq.toLower
  let func_name := handler_func.sig.ident
  pure [OutputFragment.tokens (entry_asm_str irq lower_caes_irq),
        OutputFragment.tokens (handler_trampoline_str lower_caes_irq func_name),
        OutputFragment.func handler_func]

/-- Spec-side helper: the return types the task-entry checker lets
through — absent, unit (the empty tuple), and the never type. -/
def main_return_type_ok : ReturnType → Bool
  | ReturnType.default => true
  | ReturnType.type (RustType.tuple elems) => elems.length == 0
  | ReturnType.type RustType.never => true
  | ReturnType.type (RustType.other _) => false

/-- Spec-side helper: the return types the handler checker lets through —
absent and unit only; the never type is rejected. -/
def handler_return_type_ok : ReturnType → Bool
  | ReturnType.default => true
  | ReturnType.type (RustType.tuple elems) => elems.length == 0
  | ReturnType.type _ => false

/-- First-failure cascade written from the spec's description of
`validateTaskEntry`: the five rules in order, each failure reported with
the message the source panics with, no aggregation. -/
def main_first_failure (sig : Signature) : Except String Unit :=
  if sig.inputs.length ≠ 1 then
    Except.error "Main function must receive one argument of type `cortex_m::Peripherals`."
  else if main_return_type_ok sig.output = false then
    Except.error hander_macro_retval_error
  else if sig.asyncness then
    Except.error "Main function cannot be `async`."
  else if sig.unsafety then
    Except.error "Main function must be safe."
  else if sig.variadic then
    Except.error "Handler function cannot be variadic."
  else
    Except.ok ()

/-- First-failure cascade written from the spec's description of
`validateHandler`: the five rules in order, each failure reported with
the message the source panics with, no aggregation. -/
def handler_first_failure (sig : Signature) : Except String Unit :=
  if sig.inputs.length ≠ 0 then
    Except.error "Handler function should not have any parameter."
  else if handler_return_type_ok sig.output = false then
    Except.error hander_macro_retval_error
  else if sig.abi.isSome then
    Except.error "Handler function must have Rust ABI."
  else if sig.asyncness then
    Except.error "Handler function cannot be `async`."
  else if sig.variadic then
    Except.error "Handler function cannot be variadic."
  else
    Except.ok ()

/-- Concrete task-entry declaration used in scenario witnesses: `boot`,
one parameter, no return-type annotation, no qualifiers. -/
def bootFn : ItemFn :=
  ⟨⟨"boot", [RustType.other "cortex_m::Peripherals"], ReturnType.default,
    false, false, none, false⟩, "fn boot(cp: cortex_m::Peripherals) ..."⟩

/-- Concrete handler declaration used in scenario witnesses:
`tick_handler`, no parameter, no return-type annotation, no qualifiers. -/
def tickFn : ItemFn :=
  ⟨⟨"tick_handler", [], ReturnType.default, false, false, none, false⟩,
   "fn tick_handler() ..."⟩

/-- Concrete handler declaration with an explicit `extern "C"` ABI tag
and an otherwise valid signature. -/
def abiTaggedFn : ItemFn :=
  ⟨⟨"tick_handler", [], ReturnType.default, false, false, some "C", false⟩,
   "extern C fn tick_handler() ..."⟩

/-- Concrete task-entry declaration with zero parameters. -/
def zeroParamFn : ItemFn :=
  ⟨⟨"main", [], ReturnType.default, false, false, none, false⟩, "fn main() ..."⟩

/-- Concrete task-entry declaration with two parameters. -/
def twoParamFn : ItemFn :=
  ⟨⟨"main", [RustType.other "A", RustType.other "B"], ReturnType.default,
    false, false, none, false⟩, "fn main(a: A, b: B) ..."⟩

/-- Concrete task-entry signature returning the never type. -/
def mainNeverSig : Signature :=
  ⟨"main", [RustType.other "cortex_m::Peripherals"],
   ReturnType.type RustType.never, false, false, none, false⟩

/-- Concrete handler signature returning the never type. -/
def handlerNeverSig : Signature :=
  ⟨"h", [], ReturnType.type RustType.never, false, false, none, false⟩

/-- Concrete variadic task-entry signature, otherwise valid. -/
def mainVariadicSig : Signature :=
  ⟨"main", [RustType.other "cortex_m::Peripherals"], ReturnType.default,
   false, false, none, true⟩

/-- Concrete variadic handler signature, otherwise valid. -/
def handlerVariadicSig : Signature :=
  ⟨"h", [], ReturnType.default, false, false, none, true⟩

/-- Concrete valid handler signature with every marker cleared; the base
point at which the unsafety marker is toggled. -/
def handlerBaseSig : Signature :=
  ⟨"h", [], ReturnType.default, false, false, none, false⟩

/-- Concrete task-entry signature carrying the `unsafe` qualifier, with
every other rule satisfied. -/
def mainUnsafeMarkedSig : Signature :=
  ⟨"m", [RustType.other "cortex_m::Peripherals"], ReturnType.default,
   false, true, none, false⟩

theorem except_error_bind {ε α β : Type} (e : ε) (f : α → Except ε β) :
    (Except.error e : Except ε α) >>= f = Except.error e := rfl

theorem except_ok_bind {ε α β : Type} (a : α) (f : α → Except ε β) :
    (Except.ok a : Except ε α) >>= f = f a := rfl

theorem except_pure_eq_ok {ε α : Type} (a : α) :
    (pure a : Except ε α) = Except.ok a := rfl

theorem str_append_assoc (a b c : String) : a ++ b ++ c = a ++ (b ++ c) := by
  rcases a with ⟨a⟩
  rcases b with ⟨b⟩
  rcases c with ⟨c⟩
  show String.mk ((a ++ b) ++ c) = String.mk (a ++ (b ++ c))
  rw [List.append_assoc]

/-- Helper: `check_main_function_signature` equals the first-failure
cascade of the spec. -/
theorem check_main_eq_first_failure (sig : Signature) :
    check_main_function_signature sig = main_first_failure sig := by
  rcases sig with ⟨id, ins, outp, a, u, ab, v⟩
  by_cases h1 : ins.length = 1
  · rcases outp with _ | t
    · cases a <;> cases u <;> cases v <;>
        simp [check_main_function_signature, main_first_failure,
          main_return_type_ok, h1, except_error_bind, except_ok_bind, except_pure_eq_ok]
    · rcases t with elems | _ | d
      · by_cases h2 : elems.length = 0
        · cases a <;> cases u <;> cases v <;>
            simp [check_main_function_signature, main_first_failure,
              main_return_type_ok, h1, h2, except_error_bind, except_ok_bind, except_pure_eq_ok]
        · simp [check_main_function_signature, main_first_failure,
            main_return_type_ok, h1, h2, except_error_bind, except_ok_bind, except_pure_eq_ok]
      · cases a <;> cases u <;> cases v <;>
          simp [check_main_function_signature, main_first_failure,
            main_return_type_ok, h1, except_error_bind, except_ok_bind, except_pure_eq_ok]
      · simp [check_main_function_signature, main_first_failure,
          main_return_type_ok, h1, except_error_bind, except_ok_bind, except_pure_eq_ok]
  · simp [check_main_function_signature, main_first_failure, h1, except_error_bind, except_ok_bind, except_pure_eq_ok]

/-- Helper: `check_handler_function_signature` equals the first-failure
cascade of the spec. -/
theorem check_handler_eq_first_failure (sig : Signature) :
    check_handler_function_signature sig = handler_first_failure sig := by
  rcases sig with ⟨id, ins, outp, a, u, ab, v⟩
  by_cases h1 : ins.length = 0
  · rcases outp with _ | t
    · cases ab <;> cases a <;> cases v <;>
        simp [check_handler_function_signature, handler_first_failure,
          handler_return_type_ok, h1, except_error_bind, except_ok_bind, except_pure_eq_ok]
    · rcases t with elems | _ | d
      · by_cases h2 : elems.length = 0
        · cases ab <;> cases a <;> cases v <;>
            simp [check_handler_function_signature, handler_first_failure,
              handler_return_type_ok, h1, h2, except_error_bind, except_ok_bind, except_pure_eq_ok]
        · simp [check_handler_function_signature, handler_first_failure,
            handler_return_type_ok, h1, h2, except_error_bind, except_ok_bind, except_pure_eq_ok]
      · simp [check_handler_function_signature, handler_first_failure,
          handler_return_type_ok, h1, except_error_bind, except_ok_bind, except_pure_eq_ok]
      · simp [check_handler_function_signature, handler_first_failure,
          handler_return_type_ok, h1, except_error_bind, except_ok_bind, except_pure_eq_ok]
  · simp [check_handler_function_signature, handler_first_failure, h1, except_error_bind, except_ok_bind, except_pure_eq_ok]

/-- Helper: `parse_attribute_arg_to_irq` as a single case split — success
exactly on a one-element bare-path argument list whose stringification is
in the table, with the single shared panic message everywhere else. -/
theorem parse_attribute_arg_to_irq_eq (supported : List String)
    (attr_args : List NestedMeta) :
    parse_attribute_arg_to_irq supported attr_args =
      match attr_args with
      | [NestedMeta.metaPath ss] =>
        if supported.any (fun irq => irq == ss) then Except.ok ss
        else Except.error hander_macro_arg_error
      | _ => Except.error hander_macro_arg_error := by
  match attr_args with
  | [] => rfl
  | [NestedMeta.metaPath ss] =>
    by_cases h : supported.any (fun irq => irq == ss) <;>
      simp [parse_attribute_arg_to_irq, h, except_error_bind, except_ok_bind, except_pure_eq_ok] <;>
      simpa using h
  | [NestedMeta.otherMeta d] => rfl
  | a :: b :: rest => simp [parse_attribute_arg_to_irq, except_error_bind, except_ok_bind, except_pure_eq_ok]

/-- Helper: the return types accepted by the task-entry checker are
exactly absent, unit and never. -/
theorem main_return_type_ok_iff (rt : ReturnType) :
    main_return_type_ok rt = true ↔
      (rt = ReturnType.default ∨ rt = ReturnType.type (RustType.tuple []) ∨
       rt = ReturnType.type RustType.never) := by
  rcases rt with _ | t
  · simp [main_return_type_ok]
  · rcases t with elems | _ | d
    · simp [main_return_type_ok, List.length_eq_zero]
    · simp [main_return_type_ok]
    · simp [main_return_type_ok]

/-- Helper: the return types accepted by the handler checker are exactly
absent and unit. -/
theorem handler_return_type_ok_iff (rt : ReturnType) :
    handler_return_type_ok rt = true ↔
      (rt = ReturnType.default ∨ rt = ReturnType.type (RustType.tuple [])) := by
  rcases rt with _ | t
  · simp [handler_return_type_ok]
  · rcases t with elems | _ | d
    · simp [handler_return_type_ok, List.length_eq_zero]
    · simp [handler_return_type_ok]
    · simp [handler_return_type_ok]

/-- C1: `transformHandler` checks the signature before resolving the
interrupt name — whenever the signature checker fails with some message,
the whole `handler` expansion fails with exactly that message, whatever
the annotation arguments are, so a name-resolution error can never be
reported for a declaration with a bad signature. -/
theorem handler_signature_checked_before_name
    (supported : List String) (attr_args : List NestedMeta) (f : ItemFn)
    (e : String) (h : check_handler_function_signature f.sig = Except.error e) :
    handler supported attr_args f = Except.error e := by
  unfold handler
  rw [h]
  rfl

/-- C1 witness: a handler declaration tagged `extern "C"` whose name
argument `TIM2` does resolve in the stm32f401 table still fails with the
calling-convention signature error. -/
theorem handler_signature_checked_before_name_witness :
    check_handler_function_signature abiTaggedFn.sig =
      Except.error "Handler function must have Rust ABI." ∧
    parse_attribute_arg_to_irq SUPPORTED_IRQS_stm32f401
      [NestedMeta.metaPath "TIM2"] = Except.ok "TIM2" ∧
    handler SUPPORTED_IRQS_stm32f401 [NestedMeta.metaPath "TIM2"] abiTaggedFn =
      Except.error "Handler function must have Rust ABI." :=
  ⟨rfl, rfl,
   handler_signature_checked_before_name SUPPORTED_IRQS_stm32f401
     [NestedMeta.metaPath "TIM2"] abiTaggedFn
     "Handler function must have Rust ABI." rfl⟩

/-- C2 counterexample: the claim that every signature failure reports a
string distinct per declaration kind and naming that kind is false — a
variadic task-entry declaration and a variadic handler declaration fail
with one and the same message, worded for handlers ("Handler function
cannot be variadic."), and likewise a bad return type on a task-entry
declaration reports the handler-worded `hander_macro_retval_error`
message that the handler checker also uses. -/
theorem signature_error_wording_counterexample :
    check_main_function_signature mainVariadicSig =
      Except.error "Handler function cannot be variadic." ∧
    check_handler_function_signature handlerVariadicSig =
      Except.error "Handler function cannot be variadic." ∧
    check_main_function_signature
      ⟨"main", [RustType.other "cortex_m::Peripherals"],
       ReturnType.type (RustType.other "u32"), false, false, none, false⟩ =
      Except.error hander_macro_retval_error ∧
    check_handler_function_signature
      ⟨"h", [], ReturnType.type (RustType.other "u32"), false, false, none,
       false⟩ = Except.error hander_macro_retval_error :=
  ⟨rfl, rfl, rfl, rfl⟩

/-- C2 (amended): both validators stop at the first violated rule and
report its fixed message, without aggregating; within each validator the
five messages are pairwise distinct; but the task-entry validator's
return-type and variadic messages reuse the handler wording (the same
strings the handler validator reports), so the messages are neither
distinct across the two declaration kinds nor always worded for the kind
being validated. -/
theorem signature_first_failure_and_messages :
    (∀ sig : Signature,
       check_main_function_signature sig = main_first_failure sig) ∧
    (∀ sig : Signature,
       check_handler_function_signature sig = handler_first_failure sig) ∧
    List.Nodup
      ["Main function must receive one argument of type `cortex_m::Peripherals`.",
       hander_macro_retval_error,
       "Main function cannot be `async`.",
       "Main function must be safe.",
       "Handler function cannot be variadic."] ∧
    List.Nodup
      ["Handler function should not have any parameter.",
       hander_macro_retval_error,
       "Handler function must have Rust ABI.",
       "Handler function cannot be `async`.",
       "Handler function cannot be variadic."] :=
  ⟨check_main_eq_first_failure, check_handler_eq_first_failure,
   by decide, by decide⟩

/-- C3: return-type validation is asymmetric — with every other rule
satisfied, the task-entry checker accepts exactly absent, unit and never,
the handler checker accepts exactly absent and unit, and a handler
declaration returning never fails with the return-type error. -/
theorem return_type_asymmetry :
    (∀ sig : Signature, sig.inputs.length = 1 → sig.asyncness = false →
       sig.unsafety = false → sig.variadic = false →
       (check_main_function_signature sig = Except.ok () ↔
         (sig.output = ReturnType.default ∨
          sig.output = ReturnType.type (RustType.tuple []) ∨
          sig.output = ReturnType.type RustType.never))) ∧
    (∀ sig : Signature, sig.inputs.length = 0 → sig.abi = none →
       sig.asyncness = false → sig.variadic = false →
       (check_handler_function_signature sig = Except.ok () ↔
         (sig.output = ReturnType.default ∨
          sig.output = ReturnType.type (RustType.tuple [])))) ∧
    (∀ sig : Signature, sig.inputs.length = 0 →
       sig.output = ReturnType.type RustType.never →
       check_handler_function_signature sig =
         Except.error hander_macro_retval_error) := by
  refine ⟨fun sig h1 h2 h3 h4 => ?_, fun sig h1 h2 h3 h4 => ?_,
    fun sig h1 h2 => ?_⟩
  · rw [check_main_eq_first_failure, ← main_return_type_ok_iff]
    unfold main_first_failure
    by_cases hrt : main_return_type_ok sig.output <;>
      simp [h1, h2, h3, h4, hrt]
  · rw [check_handler_eq_first_failure, ← handler_return_type_ok_iff]
    unfold handler_first_failure
    by_cases hrt : handler_return_type_ok sig.output <;>
      simp [h1, h2, h3, h4, hrt]
  · rw [check_handler_eq_first_failure]
    unfold handler_first_failure
    simp [h1, h2, handler_return_type_ok]

/-- C3 witness: a task-entry signature returning never passes the checker
while a handler signature returning never fails with the return-type
error. -/
theorem return_type_asymmetry_witness :
    check_main_function_signature mainNeverSig = Except.ok () ∧
    check_handler_function_signature handlerNeverSig =
      Except.error hander_macro_retval_error :=
  ⟨(return_type_asymmetry.1 mainNeverSig rfl rfl rfl rfl).mpr
     (Or.inr (Or.inr rfl)),
   return_type_asymmetry.2.2 handlerNeverSig rfl rfl⟩

/-- C4 counterexample: the three failure modes of
`parse_attribute_arg_to_irq` — wrong arity, argument not a bare
identifier, and name absent from the registry — all report one and the
same message, so the claimed three distinct errors do not exist in the
code. -/
theorem name_resolution_errors_counterexample :
    parse_attribute_arg_to_irq SUPPORTED_IRQS_stm32f401
      ([] : List NestedMeta) = Except.error hander_macro_arg_error ∧
    parse_attribute_arg_to_irq SUPPORTED_IRQS_stm32f401
      [NestedMeta.otherMeta "2"] = Except.error hander_macro_arg_error ∧
    parse_attribute_arg_to_irq SUPPORTED_IRQS_stm32f401
      [NestedMeta.metaPath "NOT_A_REAL_IRQ"] =
      Except.error hander_macro_arg_error :=
  ⟨rfl, rfl, rfl⟩

/-- C4 (amended): `parse_attribute_arg_to_irq` fails unless the argument
list has exactly one element, fails unless that element is a bare
identifier, fails unless the registry contains its stringification, and
otherwise returns the name unchanged — but all three failures report the
single shared `hander_macro_arg_error` message (which does carry the
hint about an unselected MCU-model feature), not three distinct
errors. -/
theorem name_resolution_cascade (supported : List String)
    (attr_args : List NestedMeta) :
    parse_attribute_arg_to_irq supported attr_args =
      match attr_args with
      | [NestedMeta.metaPath ss] =>
        if supported.any (fun irq => irq == ss) then Except.ok ss
        else Except.error hander_macro_arg_error
      | _ => Except.error hander_macro_arg_error :=
  parse_attribute_arg_to_irq_eq supported attr_args

/-- Helper: inversion of a successful `main` expansion — the signature
check passed and the output is the trampoline followed by the original
item. -/
theorem main_ok_inversion (f : ItemFn) (out : List OutputFragment)
    (h : main f = Except.ok out) :
    check_main_function_signature f.sig = Except.ok () ∧
    out = [OutputFragment.tokens (main_trampoline_str f.sig.ident),
           OutputFragment.func f] := by
  unfold main at h
  cases hc : check_main_function_signature f.sig with
  | error e =>
    rw [hc, except_error_bind] at h
    exact Except.noConfusion h
  | ok u =>
    cases u
    rw [hc, except_ok_bind] at h
    simp only [except_pure_eq_ok, Except.ok.injEq] at h
    exact ⟨rfl, h.symm⟩

/-- Helper: inversion of a successful `handler` expansion — both checks
passed and the output is the entry sequence, the dispatch trampoline,
then the original item. -/
theorem handler_ok_inversion (supported : List String)
    (attr_args : List NestedMeta) (f : ItemFn) (out : List OutputFragment)
    (h : handler supported attr_args f = Except.ok out) :
    ∃ irq, check_handler_function_signature f.sig = Except.ok () ∧
      parse_attribute_arg_to_irq supported attr_args = Except.ok irq ∧
      out = [OutputFragment.tokens (entry_asm_str irq irq.toLower),
             OutputFragment.tokens
               (handler_trampoline_str irq.toLower f.sig.ident),
             OutputFragment.func f] := by
  unfold handler at h
  cases hc : check_handler_function_signature f.sig with
  | error e =>
    rw [hc, except_error_bind] at h
    exact Except.noConfusion h
  | ok u =>
    cases u
    rw [hc, except_ok_bind] at h
    cases hp : parse_attribute_arg_to_irq supported attr_args with
    | error e =>
      rw [hp, except_error_bind] at h
      exact Except.noConfusion h
    | ok irq =>
      rw [hp, except_ok_bind] at h
      simp only [except_pure_eq_ok, Except.ok.injEq] at h
      exact ⟨irq, rfl, rfl, h.symm⟩

/-- C5: the generated-symbol contract — for every successful expansion,
the task trampoline is declared under the one fixed external name
`__main_trampoline`, the handler entry sequence carries
`export_name = "<irq>"` with the exact resolved interrupt name, and the
handler dispatch trampoline is declared under the name built from the
fixed prefix `__hopter_`, the lowercased interrupt name, and the fixed
suffix `_trampoline`. -/
theorem generated_symbol_contract :
    (∀ (f : ItemFn) (out : List OutputFragment),
       main f = Except.ok out →
       ∃ rest, out.head? = some (OutputFragment.tokens
         ("#[no_mangle]\nextern \"Rust\" fn __main_trampoline" ++ rest))) ∧
    (∀ (supported : List String) (attr_args : List NestedMeta)
       (f : ItemFn) (out : List OutputFragment),
       handler supported attr_args f = Except.ok out →
       ∃ irq rest1 rest2,
         parse_attribute_arg_to_irq supported attr_args = Except.ok irq ∧
         out.head? = some (OutputFragment.tokens
           ("#[naked]\n#[export_name = \"" ++ (irq ++ ("\"]\n" ++ rest1)))) ∧
         out.get? 1 = some (OutputFragment.tokens
           ("unsafe extern \"C\" fn __hopter_" ++
             (irq.toLower ++ ("_trampoline" ++ rest2))))) := by
  constructor
  · intro f out h
    obtain ⟨-, rfl⟩ := main_ok_inversion f out h
    refine ⟨"(arg: core::sync::atomic::AtomicPtr<u8>) \x7b\nlet arg = arg.load(core::sync::atomic::Ordering::SeqCst) as *mut cortex_m::Peripherals;\nlet arg = unsafe \x7b alloc::boxed::Box::from_raw(arg) \x7d;\n" ++ (f.sig.ident ++ "(*arg)\n\x7d"), ?_⟩
    have hs : ("#[no_mangle]\nextern \"Rust\" fn __main_trampoline(arg: core::sync::atomic::AtomicPtr<u8>) \x7b\nlet arg = arg.load(core::sync::atomic::Ordering::SeqCst) as *mut cortex_m::Peripherals;\nlet arg = unsafe \x7b alloc::boxed::Box::from_raw(arg) \x7d;\n" : String) =
        "#[no_mangle]\nextern \"Rust\" fn __main_trampoline" ++ "(arg: core::sync::atomic::AtomicPtr<u8>) \x7b\nlet arg = arg.load(core::sync::atomic::Ordering::SeqCst) as *mut cortex_m::Peripherals;\nlet arg = unsafe \x7b alloc::boxed::Box::from_raw(arg) \x7d;\n" := by decide
    have key : main_trampoline_str f.sig.ident =
        "#[no_mangle]\nextern \"Rust\" fn __main_trampoline" ++
          ("(arg: core::sync::atomic::AtomicPtr<u8>) \x7b\nlet arg = arg.load(core::sync::atomic::Ordering::SeqCst) as *mut cortex_m::Peripherals;\nlet arg = unsafe \x7b alloc::boxed::Box::from_raw(arg) \x7d;\n" ++ (f.sig.ident ++ "(*arg)\n\x7d")) := by
      show "#[no_mangle]\nextern \"Rust\" fn __main_trampoline(arg: core::sync::atomic::AtomicPtr<u8>) \x7b\nlet arg = arg.load(core::sync::atomic::Ordering::SeqCst) as *mut cortex_m::Peripherals;\nlet arg = unsafe \x7b alloc::boxed::Box::from_raw(arg) \x7d;\n" ++ f.sig.ident ++ "(*arg)\n\x7d" = _
      rw [hs]
      simp only [str_append_assoc]
    show some (OutputFragment.tokens (main_trampoline_str f.sig.ident)) = _
    rw [key]
  · intro supported attr_args f out h
    obtain ⟨irq, -, hp, rfl⟩ := handler_ok_inversion supported attr_args f out h
    refine ⟨irq,
      "unsafe extern \"C\" fn __hopter_" ++
        (irq.toLower ++ ("_entry() \x7b\ncore::arch::asm!(\n\"ldr   r0, =\x7btls_mem_addr\x7d\",\n\"ldmia r0, \x7b\x7br1-r3\x7d\x7d\",\n\"push  \x7b\x7br1-r3, lr\x7d\x7d\",\n\"ldr   r1, =\x7bcont_stk_boundary\x7d\",\n\"mov   r2, #0\",\n\"strd  r1, r2, [r0]\",\n\"str   r2, [r0, #8]\",\n// Run the IRQ handler.\n\"bl    \x7bhandler_trampoline\x7d\",\n\"pop   \x7b\x7br1-r3\x7d\x7d\",\n\"ldr   r0, =\x7btls_mem_addr\x7d\",\n\"stmia r0, \x7b\x7br1-r3\x7d\x7d\",\n// Exception return.\n\"pop   \x7b\x7bpc\x7d\x7d\",\ntls_mem_addr = const hopter::config::__TLS_MEM_ADDR,\ncont_stk_boundary = const hopter::config::__CONTIGUOUS_STACK_BOUNDARY,\nhandler_trampoline = sym __hopter_" ++ (irq.toLower ++ "_trampoline,\noptions(noreturn)\n)\n\x7d\n"))),
      "() \x7b\nlet prev_is_handler_unwinding = hopter::unwind::unwind::save_and_clear_isr_unwinding();\nlet _ = hopter::unwind::unw_catch::catch_unwind(" ++ (f.sig.ident ++ ");\nhopter::unwind::unwind::set_isr_unwinding(prev_is_handler_unwinding);\n\x7d\n"),
      hp, ?_, ?_⟩
    · have hs : ("\"]\nunsafe extern \"C\" fn __hopter_" : String) =
          "\"]\n" ++ "unsafe extern \"C\" fn __hopter_" := by decide
      have key : entry_asm_str irq irq.toLower =
          "#[naked]\n#[export_name = \"" ++
            (irq ++ ("\"]\n" ++
              ("unsafe extern \"C\" fn __hopter_" ++
                (irq.toLower ++ ("_entry() \x7b\ncore::arch::asm!(\n\"ldr   r0, =\x7btls_mem_addr\x7d\",\n\"ldmia r0, \x7b\x7br1-r3\x7d\x7d\",\n\"push  \x7b\x7br1-r3, lr\x7d\x7d\",\n\"ldr   r1, =\x7bcont_stk_boundary\x7d\",\n\"mov   r2, #0\",\n\"strd  r1, r2, [r0]\",\n\"str   r2, [r0, #8]\",\n// Run the IRQ handler.\n\"bl    \x7bhandler_trampoline\x7d\",\n\"pop   \x7b\x7br1-r3\x7d\x7d\",\n\"ldr   r0, =\x7btls_mem_addr\x7d\",\n\"stmia r0, \x7b\x7br1-r3\x7d\x7d\",\n// Exception return.\n\"pop   \x7b\x7bpc\x7d\x7d\",\ntls_mem_addr = const hopter::config::__TLS_MEM_ADDR,\ncont_stk_boundary = const hopter::config::__CONTIGUOUS_STACK_BOUNDARY,\nhandler_trampoline = sym __hopter_" ++
                  (irq.toLower ++ "_trampoline,\noptions(noreturn)\n)\n\x7d\n")))))) := by
        show "#[naked]\n#[export_name = \"" ++ irq ++ "\"]\nunsafe extern \"C\" fn __hopter_" ++ irq.toLower ++
          "_entry() \x7b\ncore::arch::asm!(\n\"ldr   r0, =\x7btls_mem_addr\x7d\",\n\"ldmia r0, \x7b\x7br1-r3\x7d\x7d\",\n\"push  \x7b\x7br1-r3, lr\x7d\x7d\",\n\"ldr   r1, =\x7bcont_stk_boundary\x7d\",\n\"mov   r2, #0\",\n\"strd  r1, r2, [r0]\",\n\"str   r2, [r0, #8]\",\n// Run the IRQ handler.\n\"bl    \x7bhandler_trampoline\x7d\",\n\"pop   \x7b\x7br1-r3\x7d\x7d\",\n\"ldr   r0, =\x7btls_mem_addr\x7d\",\n\"stmia r0, \x7b\x7br1-r3\x7d\x7d\",\n// Exception return.\n\"pop   \x7b\x7bpc\x7d\x7d\",\ntls_mem_addr = const hopter::config::__TLS_MEM_ADDR,\ncont_stk_boundary = const hopter::config::__CONTIGUOUS_STACK_BOUNDARY,\nhandler_trampoline = sym __hopter_" ++ irq.toLower ++ "_trampoline,\noptions(noreturn)\n)\n\x7d\n" = _
        rw [hs]
        simp only [str_append_assoc]
      show some (OutputFragment.tokens (entry_asm_str irq irq.toLower)) = _
      rw [key]
    · have hs : ("_trampoline() \x7b\nlet prev_is_handler_unwinding = hopter::unwind::unwind::save_and_clear_isr_unwinding();\nlet _ = hopter::unwind::unw_catch::catch_unwind(" : String) =
          "_trampoline" ++ "() \x7b\nlet prev_is_handler_unwinding = hopter::unwind::unwind::save_and_clear_isr_unwinding();\nlet _ = hopter::unwind::unw_catch::catch_unwind(" := by decide
      have key : handler_trampoline_str irq.toLower f.sig.ident =
          "unsafe extern \"C\" fn __hopter_" ++
            (irq.toLower ++ ("_trampoline" ++
              ("() \x7b\nlet prev_is_handler_unwinding = hopter::unwind::unwind::save_and_clear_isr_unwinding();\nlet _ = hopter::unwind::unw_catch::catch_unwind(" ++ (f.sig.ident ++ ");\nhopter::unwind::unwind::set_isr_unwinding(prev_is_handler_unwinding);\n\x7d\n")))) := by
        show "unsafe extern \"C\" fn __hopter_" ++ irq.toLower ++ "_trampoline() \x7b\nlet prev_is_handler_unwinding = hopter::unwind::unwind::save_and_clear_isr_unwinding();\nlet _ = hopter::unwind::unw_catch::catch_unwind(" ++
          f.sig.ident ++ ");\nhopter::unwind::unwind::set_isr_unwinding(prev_is_handler_unwinding);\n\x7d\n" = _
        rw [hs]
        simp only [str_append_assoc]
      show some (OutputFragment.tokens
        (handler_trampoline_str irq.toLower f.sig.ident)) = _
      rw [key]

/-- C5 witness: the contract instantiated at a concrete successful task
expansion (`boot`) and a concrete successful handler expansion
(`tick_handler` on `TIM2` under the stm32f401 table). -/
theorem generated_symbol_contract_witness :
    (∃ rest,
       [OutputFragment.tokens (main_trampoline_str "boot"),
        OutputFragment.func bootFn].head? = some (OutputFragment.tokens
         ("#[no_mangle]\nextern \"Rust\" fn __main_trampoline" ++ rest))) ∧
    (∃ irq rest1 rest2,
       parse_attribute_arg_to_irq SUPPORTED_IRQS_stm32f401
         [NestedMeta.metaPath "TIM2"] = Except.ok irq ∧
       [OutputFragment.tokens (entry_asm_str "TIM2" ("TIM2".toLower)),
        OutputFragment.tokens
          (handler_trampoline_str ("TIM2".toLower) "tick_handler"),
        OutputFragment.func tickFn].head? = some (OutputFragment.tokens
         ("#[naked]\n#[export_name = \"" ++ (irq ++ ("\"]\n" ++ rest1)))) ∧
       [OutputFragment.tokens (entry_asm_str "TIM2" ("TIM2".toLower)),
        OutputFragment.tokens
          (handler_trampoline_str ("TIM2".toLower) "tick_handler"),
        OutputFragment.func tickFn].get? 1 = some (OutputFragment.tokens
         ("unsafe extern \"C\" fn __hopter_" ++
           (irq.toLower ++ ("_trampoline" ++ rest2))))) :=
  ⟨generated_symbol_contract.1 bootFn
     [OutputFragment.tokens (main_trampoline_str "boot"),
      OutputFragment.func bootFn] rfl,
   generated_symbol_contract.2 SUPPORTED_IRQS_stm32f401
     [NestedMeta.metaPath "TIM2"] tickFn
     [OutputFragment.tokens (entry_asm_str "TIM2" ("TIM2".toLower)),
      OutputFragment.tokens
        (handler_trampoline_str ("TIM2".toLower) "tick_handler"),
      OutputFragment.func tickFn] rfl⟩


/-- Helper: the task-entry checker reads the parameter list only through
its length — swapping the single parameter's type never changes the
result. -/
theorem check_main_inputs_only_length (sig : Signature) (t1 t2 : RustType) :
    check_main_function_signature { sig with inputs := [t1] } =
      check_main_function_signature { sig with inputs := [t2] } := by
  rw [check_main_eq_first_failure, check_main_eq_first_failure]
  rfl

/-- C6: with no target variant selected the registry is the empty table,
and then `parse_attribute_arg_to_irq` fails (with the single shared
message) on every possible argument list, including every bare
identifier. -/
theorem empty_registry_rejects_every_name :
    SUPPORTED_IRQS_no_feature = ([] : List String) ∧
    ∀ attr_args : List NestedMeta,
      parse_attribute_arg_to_irq SUPPORTED_IRQS_no_feature attr_args =
        Except.error hander_macro_arg_error := by
  refine ⟨rfl, fun attr_args => ?_⟩
  rw [parse_attribute_arg_to_irq_eq]
  rcases attr_args with _ | ⟨a, _ | ⟨b, r⟩⟩
  · rfl
  · cases a <;> rfl
  · cases a <;> rfl

/-- C7: a task-entry declaration whose parameter list does not have
exactly one element — zero parameters as much as two or more — makes the
whole `main` expansion fail with the arity message; it never silently
succeeds. -/
theorem task_entry_arity_check (f : ItemFn)
    (h : f.sig.inputs.length ≠ 1) :
    main f = Except.error
      "Main function must receive one argument of type `cortex_m::Peripherals`." := by
  unfold main
  rw [check_main_eq_first_failure]
  unfold main_first_failure
  rw [if_pos h]
  rfl

/-- C7 witness: the zero-parameter and the two-parameter concrete
task-entry declarations both fail with the arity message. -/
theorem task_entry_arity_check_witness :
    main zeroParamFn = Except.error
      "Main function must receive one argument of type `cortex_m::Peripherals`." ∧
    main twoParamFn = Except.error
      "Main function must receive one argument of type `cortex_m::Peripherals`." :=
  ⟨task_entry_arity_check zeroParamFn (by decide),
   task_entry_arity_check twoParamFn (by decide)⟩

/-- C8: every successful expansion returns exactly the generated
trampoline fragments followed by the original declaration, verbatim and
unmodified. -/
theorem original_declaration_preserved :
    (∀ (f : ItemFn) (out : List OutputFragment),
       main f = Except.ok out →
       out = [OutputFragment.tokens (main_trampoline_str f.sig.ident),
              OutputFragment.func f]) ∧
    (∀ (supported : List String) (attr_args : List NestedMeta)
       (f : ItemFn) (out : List OutputFragment),
       handler supported attr_args f = Except.ok out →
       ∃ irq,
         parse_attribute_arg_to_irq supported attr_args = Except.ok irq ∧
         out = [OutputFragment.tokens (entry_asm_str irq irq.toLower),
                OutputFragment.tokens
                  (handler_trampoline_str irq.toLower f.sig.ident),
                OutputFragment.func f]) := by
  constructor
  · intro f out h
    exact (main_ok_inversion f out h).2
  · intro supported attr_args f out h
    obtain ⟨irq, -, hp, hout⟩ :=
      handler_ok_inversion supported attr_args f out h
    exact ⟨irq, hp, hout⟩

/-- C8 witness: the preservation fact instantiated at the concrete
successful `boot` and `tick_handler` expansions. -/
theorem original_declaration_preserved_witness :
    [OutputFragment.tokens (main_trampoline_str "boot"),
     OutputFragment.func bootFn] =
      [OutputFragment.tokens (main_trampoline_str bootFn.sig.ident),
       OutputFragment.func bootFn] ∧
    (∃ irq,
       parse_attribute_arg_to_irq SUPPORTED_IRQS_stm32f401
         [NestedMeta.metaPath "TIM2"] = Except.ok irq ∧
       [OutputFragment.tokens (entry_asm_str "TIM2" ("TIM2".toLower)),
        OutputFragment.tokens
          (handler_trampoline_str ("TIM2".toLower) "tick_handler"),
        OutputFragment.func tickFn] =
         [OutputFragment.tokens (entry_asm_str irq irq.toLower),
          OutputFragment.tokens
            (handler_trampoline_str irq.toLower tickFn.sig.ident),
          OutputFragment.func tickFn]) :=
  ⟨original_declaration_preserved.1 bootFn
     [OutputFragment.tokens (main_trampoline_str "boot"),
      OutputFragment.func bootFn] rfl,
   original_declaration_preserved.2 SUPPORTED_IRQS_stm32f401
     [NestedMeta.metaPath "TIM2"] tickFn
     [OutputFragment.tokens (entry_asm_str "TIM2" ("TIM2".toLower)),
      OutputFragment.tokens
        (handler_trampoline_str ("TIM2".toLower) "tick_handler"),
      OutputFragment.func tickFn] rfl⟩

/-- C9: the handler checker never reads the `unsafe` marker — toggling it
never changes the result, so an otherwise valid unsafe handler passes —
while the task-entry checker rejects the `unsafe` marker with its
dedicated message once the earlier rules hold. -/
theorem handler_check_ignores_unsafety :
    (∀ (sig : Signature) (b : Bool),
       check_handler_function_signature { sig with unsafety := b } =
         check_handler_function_signature sig) ∧
    (∀ sig : Signature, sig.inputs.length = 1 →
       main_return_type_ok sig.output = true → sig.asyncness = false →
       sig.unsafety = true →
       check_main_function_signature sig =
         Except.error "Main function must be safe.") := by
  constructor
  · intro sig b
    rw [check_handler_eq_first_failure, check_handler_eq_first_failure]
    rfl
  · intro sig h1 h2 h3 h4
    rw [check_main_eq_first_failure]
    simp [main_first_failure, h1, h2, h3, h4]

/-- C9 witness: the concrete handler signature with the `unsafe` marker
set passes the handler checker, while the concrete task-entry signature
with the `unsafe` marker set fails with the safety message. -/
theorem handler_check_ignores_unsafety_witness :
    check_handler_function_signature
      { handlerBaseSig with unsafety := true } = Except.ok () ∧
    check_main_function_signature mainUnsafeMarkedSig =
      Except.error "Main function must be safe." :=
  ⟨(handler_check_ignores_unsafety.1 handlerBaseSig true).trans rfl,
   handler_check_ignores_unsafety.2 mainUnsafeMarkedSig rfl rfl rfl rfl⟩

/-- C10: task-entry validation constrains only the parameter count, never
the parameter's type — swapping the single parameter's type changes
neither the checker's verdict nor the generated trampoline — and the
generated trampoline always casts the handoff pointer to the one fixed
type `cortex_m::Peripherals`, whatever the user declared. -/
theorem task_param_type_unconstrained :
    (∀ (sig : Signature) (t1 t2 : RustType),
       check_main_function_signature { sig with inputs := [t1] } =
         check_main_function_signature { sig with inputs := [t2] }) ∧
    (∀ (sig : Signature) (body : String) (t1 t2 : RustType),
       check_main_function_signature { sig with inputs := [t1] } =
         Except.ok () →
       main ⟨{ sig with inputs := [t1] }, body⟩ =
           Except.ok [OutputFragment.tokens (main_trampoline_str sig.ident),
                      OutputFragment.func
                        ⟨{ sig with inputs := [t1] }, body⟩] ∧
       main ⟨{ sig with inputs := [t2] }, body⟩ =
           Except.ok [OutputFragment.tokens (main_trampoline_str sig.ident),
                      OutputFragment.func
                        ⟨{ sig with inputs := [t2] }, body⟩]) ∧
    (∀ func_name : String, ∃ pre post,
       main_trampoline_str func_name =
         pre ++ ("as *mut cortex_m::Peripherals;\n" ++ post)) := by
  refine ⟨check_main_inputs_only_length,
    fun sig body t1 t2 h => ?_, fun func_name => ?_⟩
  · have h2 : check_main_function_signature { sig with inputs := [t2] } =
        Except.ok () := (check_main_inputs_only_length sig t2 t1).trans h
    constructor
    · unfold main
      rw [h]
      rfl
    · unfold main
      rw [h2]
      rfl
  · refine ⟨"#[no_mangle]\nextern \"Rust\" fn __main_trampoline(arg: core::sync::atomic::AtomicPtr<u8>) \x7b\nlet arg = arg.load(core::sync::atomic::Ordering::SeqCst) ", "let arg = unsafe \x7b alloc::boxed::Box::from_raw(arg) \x7d;\n" ++ (func_name ++ "(*arg)\n\x7d"), ?_⟩
    have hs : ("#[no_mangle]\nextern \"Rust\" fn __main_trampoline(arg: core::sync::atomic::AtomicPtr<u8>) \x7b\nlet arg = arg.load(core::sync::atomic::Ordering::SeqCst) as *mut cortex_m::Peripherals;\nlet arg = unsafe \x7b alloc::boxed::Box::from_raw(arg) \x7d;\n" : String) =
        "#[no_mangle]\nextern \"Rust\" fn __main_trampoline(arg: core::sync::atomic::AtomicPtr<u8>) \x7b\nlet arg = arg.load(core::sync::atomic::Ordering::SeqCst) " ++ ("as *mut cortex_m::Peripherals;\n" ++ "let arg = unsafe \x7b alloc::boxed::Box::from_raw(arg) \x7d;\n") := by decide
    show "#[no_mangle]\nextern \"Rust\" fn __main_trampoline(arg: core::sync::atomic::AtomicPtr<u8>) \x7b\nlet arg = arg.load(core::sync::atomic::Ordering::SeqCst) as *mut cortex_m::Peripherals;\nlet arg = unsafe \x7b alloc::boxed::Box::from_raw(arg) \x7d;\n" ++ func_name ++ "(*arg)\n\x7d" = _
    rw [hs]
    simp only [str_append_assoc]

/-- C10 witness: with the same name and body, a declared parameter type
`u32` and the declared type `cortex_m::Peripherals` both pass and produce
the identical trampoline fragment, which contains the fixed cast. -/
theorem task_param_type_unconstrained_witness :
    (main ⟨{ bootFn.sig with inputs := [RustType.other "u32"] },
           "fn boot stub"⟩ =
        Except.ok [OutputFragment.tokens (main_trampoline_str bootFn.sig.ident),
                   OutputFragment.func
                     ⟨{ bootFn.sig with inputs := [RustType.other "u32"] },
                      "fn boot stub"⟩] ∧
     main ⟨{ bootFn.sig with
             inputs := [RustType.other "cortex_m::Peripherals"] },
           "fn boot stub"⟩ =
        Except.ok [OutputFragment.tokens (main_trampoline_str bootFn.sig.ident),
                   OutputFragment.func
                     ⟨{ bootFn.sig with
                        inputs := [RustType.other "cortex_m::Peripherals"] },
                      "fn boot stub"⟩]) ∧
    (∃ pre post, main_trampoline_str "boot" =
       pre ++ ("as *mut cortex_m::Peripherals;\n" ++ post)) :=
  ⟨task_param_type_unconstrained.2.1 bootFn.sig "fn boot stub"
     (RustType.other "u32") (RustType.other "cortex_m::Peripherals") rfl,
   task_param_type_unconstrained.2.2 "boot"⟩

end Hopter
